import Mathlib

set_option maxRecDepth 100000

/-!
Verification of the Record Aggregation & Analytics module of the
student grade management system (`src/grade_management.py`), plus the
SQLite persistence contract it depends on.

Modelling conventions:
* Python `float` arithmetic is embedded as exact rational arithmetic (`ℚ`);
  Python's `round(x, 2)` and `format .0f` round half to even, embedded as
  `roundHalfEven` / `round2` below.
* `math.sqrt` (used by `statistics.stdev`) is irrational on most inputs, so
  the statistics engine is parameterised by the square-root function
  `sqrtFn : ℚ → ℚ`.  No claim depends on the value of `sqrtFn`: every
  occurrence of `stdev` relevant to the claims is behind the source's own
  `len(scores) > 1` / `mean > 0` guards.
* A Python function that can raise is embedded with `Option`/`Except`;
  an expression such as `None < 5.0`, which raises `TypeError`, maps to
  `Except.error`.
* Python's `sorted` is guaranteed stable; any stable sort agrees with it
  extensionally, so it is embedded as `List.insertionSort` (stable).
* The sqlite connection is a pair (committed state, current state).  Data
  statements act on the current state; `commit()` publishes it.  The
  source's `except` branch in `save_record` returns `False` *without*
  `rollback()`, which the model reproduces: the current state keeps the
  partial writes.
-/

namespace Grade

/-- Round half to even to an integer (semantics of Python `round`/`format`
on a number representable exactly). -/
def roundHalfEven (q : ℚ) : ℤ :=
  if q - ⌊q⌋ < 1/2 then ⌊q⌋
  else if 1/2 < q - ⌊q⌋ then ⌊q⌋ + 1
  else if ⌊q⌋ % 2 = 0 then ⌊q⌋ else ⌊q⌋ + 1

/-- Python `round(x, 2)`. -/
def round2 (q : ℚ) : ℚ := (roundHalfEven (q * 100) : ℚ) / 100

/-! ## Data model (`SubjectInfo`, `StudentInfo`, `AcademicRecord`) -/

/-- `SubjectInfo` dataclass: one graded subject. -/
structure SubjectInfo where
  name : String
  score : ℚ
  weight : ℤ := 1
  category : Option String := none
  notes : Option String := none
deriving DecidableEq, Repr

/-- `SubjectInfo.__post_init__`: score in [0, 10], weight in {1, 2, 3}. -/
def validSubject (s : SubjectInfo) : Bool :=
  decide (0 ≤ s.score) && decide (s.score ≤ 10) &&
    (s.weight == 1 || s.weight == 2 || s.weight == 3)

/-- The validating constructor of `SubjectInfo` (raises `ValueError`,
i.e. `none`, outside the ranges). -/
def mkSubjectInfo (name : String) (score : ℚ) (weight : ℤ)
    (category notes : Option String) : Option SubjectInfo :=
  let s : SubjectInfo := ⟨name, score, weight, category, notes⟩
  if validSubject s then some s else none

/-- `StudentInfo` dataclass. -/
structure StudentInfo where
  student_id : String
  full_name : String
  class_name : String
  academic_year : String
  date_of_birth : Option String := none
  gender : Option String := none
  email : Option String := none
  phone : Option String := none
deriving DecidableEq, Repr

/-- The regex `^[A-Z0-9]{6,10}$` of `StudentInfo.__post_init__`. -/
def validStudentId (s : String) : Bool :=
  6 ≤ s.length && s.length ≤ 10 &&
    s.toList.all (fun c => c.isUpper || c.isDigit)

/-- Validating constructor of `StudentInfo`. -/
def mkStudentInfo (student_id full_name class_name academic_year : String)
    (date_of_birth gender email phone : Option String) : Option StudentInfo :=
  if validStudentId student_id then
    some ⟨student_id, full_name, class_name, academic_year,
          date_of_birth, gender, email, phone⟩
  else none

/-- `AcademicRecord` dataclass (the generated `created_at`/`record_id`
defaults are plain fields here). -/
structure AcademicRecord where
  student : StudentInfo
  semester : String
  exam_type : String
  subjects : List SubjectInfo := []
  created_at : String
  record_id : String
deriving DecidableEq, Repr

/-- `AcademicRecord.simple_gpa`. -/
def simple_gpa (r : AcademicRecord) : ℚ :=
  if r.subjects = [] then 0
  else round2 ((r.subjects.map SubjectInfo.score).sum / (r.subjects.length : ℚ))

/-- `SubjectInfo.weighted_score`. -/
def weighted_score (s : SubjectInfo) : ℚ := s.score * (s.weight : ℚ)

/-- `AcademicRecord.weighted_gpa`. -/
def weighted_gpa (r : AcademicRecord) : ℚ :=
  if r.subjects = [] then 0
  else round2 ((r.subjects.map weighted_score).sum /
               ((r.subjects.map (fun s => (s.weight : ℚ))).sum))

/-- The six grade bands of the `GradeLevel` enum. -/
inductive GradeLevel where
  | outstanding | excellent | good | average | weak | poor
deriving DecidableEq, Repr

/-- The Vietnamese label attached to each `GradeLevel` member. -/
def gradeLabel : GradeLevel → String
  | .outstanding => "Xuất sắc"
  | .excellent => "Giỏi"
  | .good => "Khá"
  | .average => "Trung bình"
  | .weak => "Yếu"
  | .poor => "Kém"

/-- The `min_score` threshold of each `GradeLevel` member. -/
def gradeMinScore : GradeLevel → ℚ
  | .outstanding => 9
  | .excellent => 8
  | .good => 13/2
  | .average => 5
  | .weak => 7/2
  | .poor => 0

/-- Iteration order of the `GradeLevel` enum (declaration order). -/
def gradeLevelsInOrder : List GradeLevel :=
  [.outstanding, .excellent, .good, .average, .weak, .poor]

/-- `for level in GradeLevel: if x >= level.min_score: return level`;
falls back to `POOR`. -/
def gradeFromScore (x : ℚ) : GradeLevel :=
  ((gradeLevelsInOrder.find? fun lv => decide (gradeMinScore lv ≤ x)).getD .poor)

/-- `AcademicRecord.grade_level`: band lookup on `weighted_gpa`. -/
def grade_level (r : AcademicRecord) : GradeLevel :=
  gradeFromScore (weighted_gpa r)

/-! ## Statistics engine (`AdvancedAnalytics.calculate_statistics`) -/

/-- Relation used to embed Python's stable `sorted(key=score)`. -/
def scoreLe (a b : SubjectInfo) : Prop := a.score ≤ b.score

instance : DecidableRel scoreLe := fun a b => by
  unfold scoreLe; infer_instance

instance : IsTotal SubjectInfo scoreLe :=
  ⟨fun a b => le_total a.score b.score⟩

instance : IsTrans SubjectInfo scoreLe :=
  ⟨fun _ _ _ h1 h2 => le_trans h1 h2⟩

/-- `statistics.median`: middle of the sorted values (mean of the two
middles for even length). -/
def median (scores : List ℚ) : ℚ :=
  let sorted := scores.insertionSort (· ≤ ·)
  let n := scores.length
  if n % 2 = 1 then sorted.getD (n / 2) 0
  else (sorted.getD (n / 2 - 1) 0 + sorted.getD (n / 2) 0) / 2

/-- `statistics.variance`: sample variance (divide by N − 1). -/
def sampleVariance (scores : List ℚ) : ℚ :=
  let m := scores.sum / (scores.length : ℚ)
  (scores.map (fun x => (x - m) ^ 2)).sum / ((scores.length : ℚ) - 1)

/-- Python `min(scores)` / `max(scores)` as left folds. -/
def pyMin (q : ℚ) (l : List ℚ) : ℚ := l.foldl min q

def pyMax (q : ℚ) (l : List ℚ) : ℚ := l.foldl max q

/-- Python `min(subjects, key=lambda x: x.score)`: keeps the current
element unless a strictly smaller key appears, so the first minimum wins. -/
def pyMinBy (a : SubjectInfo) (l : List SubjectInfo) : SubjectInfo :=
  l.foldl (fun best x => if x.score < best.score then x else best) a

/-- Python `max(subjects, key=lambda x: x.score)`: first maximum wins. -/
def pyMaxBy (a : SubjectInfo) (l : List SubjectInfo) : SubjectInfo :=
  l.foldl (fun best x => if best.score < x.score then x else best) a

/-- The dictionary returned by `calculate_statistics` on a non-empty list. -/
structure Stats where
  count : ℕ
  mean : ℚ
  median : ℚ
  variance : ℚ
  std_dev : ℚ
  min : ℚ
  max : ℚ
  range : ℚ
  min_subject : String
  max_subject : String
  excellent_count : ℕ
  good_count : ℕ
  average_count : ℕ
  poor_count : ℕ
  excellence_rate : ℚ
  pass_rate : ℚ
  consistency_score : ℚ
deriving DecidableEq, Repr

/-- `AdvancedAnalytics.calculate_statistics`.  Returns `none` for the
empty dict `{}` produced on an empty subject list.  `sqrtFn` stands for
`math.sqrt` as used by `statistics.stdev` (see file header). -/
def calculate_statistics (sqrtFn : ℚ → ℚ) :
    List SubjectInfo → Option Stats
  | [] => none
  | a :: l =>
    let subjects := a :: l
    let scores := subjects.map SubjectInfo.score
    let n := scores.length
    some {
      count := n
      mean := scores.sum / (n : ℚ)
      median := median scores
      variance := if 1 < n then sampleVariance scores else 0
      std_dev := if 1 < n then sqrtFn (sampleVariance scores) else 0
      min := pyMin a.score (l.map SubjectInfo.score)
      max := pyMax a.score (l.map SubjectInfo.score)
      range := pyMax a.score (l.map SubjectInfo.score) -
               pyMin a.score (l.map SubjectInfo.score)
      min_subject := (pyMinBy a l).name
      max_subject := (pyMaxBy a l).name
      excellent_count := (scores.filter (fun s => decide (9 ≤ s))).length
      good_count := (scores.filter (fun s => decide (8 ≤ s) && decide (s < 9))).length
      average_count := (scores.filter (fun s => decide (5 ≤ s) && decide (s < 8))).length
      poor_count := (scores.filter (fun s => decide (s < 5))).length
      excellence_rate := ((scores.filter (fun s => decide (8 ≤ s))).length : ℚ) / (n : ℚ) * 100
      pass_rate := ((scores.filter (fun s => decide (5 ≤ s))).length : ℚ) / (n : ℚ) * 100
      consistency_score :=
        100 - (if 1 < n ∧ 0 < scores.sum / (n : ℚ) then
                 sqrtFn (sampleVariance scores) / (scores.sum / (n : ℚ)) * 100
               else 0)
    }

/-! ## Insight generator (`AdvancedAnalytics.generate_insights`) -/

/-- One insight string; each constructor stands for one of the f-string
templates of `generate_insights` (payloads are the interpolated values). -/
inductive Insight where
  | gpaTop
  | gpaGood
  | gpaDecent
  | gpaNeedsImprovement
  | veryConsistent
  | uneven
  | perfectScore (subject : String)
  | weakSubject (subject : String)
  | excellenceRate (pct : ℤ)
deriving DecidableEq, Repr

/-- `AdvancedAnalytics.generate_insights`.  `stats` is the dict from
`calculate_statistics` (`none` = the empty dict `{}`).  On the empty dict
the source evaluates `stats.get('min') < 5.0`, i.e. `None < 5.0`, which
raises `TypeError`: embedded as `Except.error`.  Note that before that
point the consistency rule has already fired, because
`stats.get('consistency_score', 0)` defaults to `0 < 70`. -/
def generate_insights (stats : Option Stats) (record : AcademicRecord) :
    Except String (List Insight) :=
  let gpa := weighted_gpa record
  let l1 : List Insight :=
    [if 9 ≤ gpa then .gpaTop
     else if 8 ≤ gpa then .gpaGood
     else if 13/2 ≤ gpa then .gpaDecent
     else .gpaNeedsImprovement]
  let consistency := ((stats.map Stats.consistency_score).getD 0)
  let l2 := l1 ++
    (if 90 ≤ consistency then [.veryConsistent]
     else if consistency < 70 then [.uneven] else [])
  let l3 := l2 ++
    (match stats with
     | some s => if s.max = 10 then [.perfectScore s.max_subject] else []
     | none => [])
  match stats with
  | none => .error "TypeError: comparison of NoneType and float"
  | some s =>
    let l4 := l3 ++ (if s.min < 5 then [.weakSubject s.min_subject] else [])
    let excellence := s.excellence_rate
    let l5 := l4 ++
      (if 70 ≤ excellence then [.excellenceRate (roundHalfEven excellence)] else [])
    .ok l5

/-! ## Performance projector (`AdvancedAnalytics.predict_performance`) -/

/-- The dict returned by `predict_performance`. -/
structure Prediction where
  current_gpa : ℚ
  predicted_next : ℚ
  improvement_potential : ℚ
  confidence : String
  recommendation : String
  focus_areas : List String
deriving DecidableEq, Repr

/-- `stats.get('consistency_score', 0)` as used by the projector. -/
def consistencyOf (sqrtFn : ℚ → ℚ) (r : AcademicRecord) : ℚ :=
  (((calculate_statistics sqrtFn r.subjects).map Stats.consistency_score).getD 0)

/-- `AdvancedAnalytics.predict_performance`. -/
def predict_performance (sqrtFn : ℚ → ℚ) (r : AcademicRecord) : Prediction :=
  let current_gpa := weighted_gpa r
  let consistency := consistencyOf sqrtFn r
  let improvement := (10 - current_gpa) * (consistency / 100) * (3/10)
  let predicted := min 10 (current_gpa + improvement)
  { current_gpa := current_gpa
    predicted_next := round2 predicted
    improvement_potential := round2 improvement
    confidence :=
      if 80 < consistency then "Cao"
      else if 60 < consistency then "Trung bình" else "Thấp"
    recommendation := if 8 ≤ current_gpa then "Duy trì" else "Cải thiện"
    focus_areas := ((r.subjects.insertionSort scoreLe).take 3).map SubjectInfo.name }

/-! ## Database manager (`DatabaseManager.save_record`,
`GradeManagementSystem.load_record_by_id`)

The three tables of `initialize_database`, with `INSERT OR REPLACE`
(delete the row with the conflicting primary key, append the new row)
and plain `INSERT` with an autoincrement id.  `SELECT ... WHERE` without
`ORDER BY` on these rowid tables returns rows in rowid (insertion)
order, modelled by keeping each table as an append-ordered list. -/

/-- A row of the `students` table. -/
structure StudentRow where
  student_id : String
  full_name : String
  class_name : String
  academic_year : String
  date_of_birth : Option String
  gender : Option String
  email : Option String
  phone : Option String
  created_at : String
deriving DecidableEq, Repr

/-- A row of the `subjects` table (`id` is the autoincrement key). -/
structure SubjectRow where
  id : ℕ
  student_id : String
  record_id : String
  subject_name : String
  score : ℚ
  weight : ℤ
  category : Option String
  notes : Option String
deriving DecidableEq, Repr

/-- A row of the `academic_records` table. -/
structure RecordRow where
  record_id : String
  student_id : String
  semester : String
  exam_type : String
  simple_gpa : ℚ
  weighted_gpa : ℚ
  grade_level : String
  total_subjects : ℕ
  created_at : String
deriving DecidableEq, Repr

/-- The visible content of the database file. -/
structure DBState where
  students : List StudentRow
  subjects : List SubjectRow
  records : List RecordRow
  nextId : ℕ
deriving DecidableEq, Repr

def emptyDB : DBState := ⟨[], [], [], 0⟩

/-- A sqlite connection: committed state plus the current (possibly
uncommitted) state of the open implicit transaction. -/
structure Conn where
  committed : DBState
  current : DBState
deriving DecidableEq, Repr

def freshConn : Conn := ⟨emptyDB, emptyDB⟩

/-- `INSERT OR REPLACE INTO students VALUES (...)` of `save_record`
(note: the row's `created_at` column receives `record.created_at`). -/
def applyStudentUpsert (r : AcademicRecord) (db : DBState) : DBState :=
  { db with students :=
      db.students.filter (fun st => st.student_id != r.student.student_id) ++
      [⟨r.student.student_id, r.student.full_name, r.student.class_name,
        r.student.academic_year, r.student.date_of_birth, r.student.gender,
        r.student.email, r.student.phone, r.created_at⟩] }

/-- `INSERT INTO subjects (...)` for one subject of the record. -/
def applySubjectInsert (r : AcademicRecord) (s : SubjectInfo) (db : DBState) :
    DBState :=
  { db with
      subjects := db.subjects ++
        [⟨db.nextId, r.student.student_id, r.record_id, s.name, s.score,
          s.weight, s.category, s.notes⟩]
      nextId := db.nextId + 1 }

/-- `INSERT OR REPLACE INTO academic_records VALUES (...)`. -/
def applyRecordUpsert (r : AcademicRecord) (db : DBState) : DBState :=
  { db with records :=
      db.records.filter (fun ar => ar.record_id != r.record_id) ++
      [⟨r.record_id, r.student.student_id, r.semester, r.exam_type,
        simple_gpa r, weighted_gpa r, gradeLabel (grade_level r),
        r.subjects.length, r.created_at⟩] }

/-- Run the data statements of a save in order.  `failAt = some k` means
the storage engine raises on the k-th statement (the spec's `StoreError`:
write failure, constraint violation, ...); the statement applies nothing
and execution stops there. -/
def runSteps (failAt : Option ℕ) : ℕ → List (DBState → DBState) → DBState →
    Bool × DBState
  | _, [], db => (true, db)
  | k, f :: fs, db =>
    if failAt = some k then (false, db)
    else runSteps failAt (k + 1) fs (f db)

/-- The ordered data statements issued by `save_record`. -/
def saveSteps (r : AcademicRecord) : List (DBState → DBState) :=
  applyStudentUpsert r :: (r.subjects.map (applySubjectInsert r) ++
    [applyRecordUpsert r])

/-- `DatabaseManager.save_record`.  On success every statement ran and
`connection.commit()` publishes the current state.  On an exception the
source prints and returns `False` — it never calls `rollback()`, so the
partial writes stay in the connection's open transaction. -/
def save_record (failAt : Option ℕ) (r : AcademicRecord) (c : Conn) :
    Bool × Conn :=
  match runSteps failAt 0 (saveSteps r) c.current with
  | (true, db) => (true, ⟨db, db⟩)
  | (false, db) => (false, ⟨c.committed, db⟩)

/-- Reconstruction of the subject list from the selected rows, through the
validating `SubjectInfo` constructor (a `ValueError` makes
`load_record_by_id` return `None`). -/
def loadSubjects : List SubjectRow → Option (List SubjectInfo)
  | [] => some []
  | row :: rest =>
    match mkSubjectInfo row.subject_name row.score row.weight
        row.category row.notes with
    | none => none
    | some s =>
      match loadSubjects rest with
      | none => none
      | some l => some (s :: l)

/-- `GradeManagementSystem.load_record_by_id`, reading through the same
connection (it sees the current state of the open transaction). -/
def load_record_by_id (record_id : String) (db : DBState) :
    Option AcademicRecord :=
  match db.records.find? (fun ar => ar.record_id == record_id) with
  | none => none
  | some ar =>
    match db.students.find? (fun st => st.student_id == ar.student_id) with
    | none => none
    | some strow =>
      match mkStudentInfo strow.student_id strow.full_name strow.class_name
          strow.academic_year strow.date_of_birth strow.gender strow.email
          strow.phone with
      | none => none
      | some student =>
        match loadSubjects
            (db.subjects.filter (fun s => s.record_id == record_id)) with
        | none => none
        | some subs =>
          some ⟨student, ar.semester, ar.exam_type, subs,
                ar.created_at, record_id⟩

/-- The subject rows inserted by `save_record` for subjects `l`, starting
at autoincrement id `n`. -/
def subjectRows (r : AcademicRecord) : ℕ → List SubjectInfo → List SubjectRow
  | _, [] => []
  | n, s :: rest =>
    ⟨n, r.student.student_id, r.record_id, s.name, s.score, s.weight,
     s.category, s.notes⟩ :: subjectRows r (n + 1) rest

/-! ## Concrete sample data (used by witnesses and counterexamples) -/

def demoStudent : StudentInfo :=
  ⟨"HS123456", "Nguyen Van An", "10A1", "2026-2027", none, none, none, none⟩

/-- A record with an empty subject list. -/
def recEmptyDemo : AcademicRecord :=
  ⟨demoStudent, "Học kỳ I", "Cuối kỳ", [], "2026-01-01T00:00:00", "AB12CD34EF56"⟩

/-- The scenario of §8 of the spec: Math 10 (w2), Lit 8 (w2), Eng 7 (w2). -/
def rec3Demo : AcademicRecord :=
  ⟨demoStudent, "Học kỳ I", "Cuối kỳ",
   [⟨"Math", 10, 2, none, none⟩, ⟨"Lit", 8, 2, none, none⟩,
    ⟨"Eng", 7, 2, none, none⟩],
   "2026-01-01T00:00:00", "AB12CD34EF56"⟩

/-- A one-subject record. -/
def rec1Demo : AcademicRecord :=
  ⟨demoStudent, "Học kỳ I", "Cuối kỳ", [⟨"Toán", 7, 1, none, none⟩],
   "2026-01-01T00:00:00", "AB12CD34EF56"⟩

/-- `calculate_statistics id rec1Demo.subjects` evaluates to this value. -/
def demoStats1 : Stats :=
  { count := 1, mean := 7, median := 7, variance := 0, std_dev := 0,
    min := 7, max := 7, range := 0, min_subject := "Toán",
    max_subject := "Toán", excellent_count := 0, good_count := 0,
    average_count := 1, poor_count := 0, excellence_rate := 0,
    pass_rate := 100, consistency_score := 100 }

/-- A record with two subjects tied at the same score. -/
def recTieDemo : AcademicRecord :=
  ⟨demoStudent, "Học kỳ I", "Cuối kỳ",
   [⟨"Văn", 5, 1, none, none⟩, ⟨"Sử", 5, 1, none, none⟩],
   "2026-01-01T00:00:00", "AB12CD34EF56"⟩

/-- `calculate_statistics id recTieDemo.subjects` evaluates to this value. -/
def demoStatsTie : Stats :=
  { count := 2, mean := 5, median := 5, variance := 0, std_dev := 0,
    min := 5, max := 5, range := 0, min_subject := "Văn",
    max_subject := "Văn", excellent_count := 0, good_count := 0,
    average_count := 2, poor_count := 0, excellence_rate := 0,
    pass_rate := 100, consistency_score := 100 }

/-- A second student and record, used for the save after the failed save. -/
def demoStudent2 : StudentInfo :=
  ⟨"HS654321", "Tran Thi Binh", "10A2", "2026-2027", none, none, none, none⟩

def recOtherDemo : AcademicRecord :=
  ⟨demoStudent2, "Học kỳ I", "Giữa kỳ", [⟨"Văn", 6, 2, none, none⟩],
   "2026-01-02T00:00:00", "ZZ99YY88XX77"⟩

/-- The connection after `save_record` of `rec1Demo` fails on its third
data statement (the record-summary upsert), with the student upsert and
the one subject insert already executed. -/
def c2FailedConn : Conn := (save_record (some 2) rec1Demo freshConn).2

/-- The connection after a subsequent fault-free save of a different
record commits on the same connection. -/
def c2FinalConn : Conn := (save_record none recOtherDemo c2FailedConn).2

/-- The connection after a fault-free save of `rec1Demo` on a fresh
connection. -/
def c9Conn : Conn := (save_record none rec1Demo freshConn).2

/-! ## Spec-side definitions (written from the spec text, for the
refinement claims) -/

/-- Strict-then-index lexicographic order on index-decorated subjects:
"ascending score order, ties broken by original input order". -/
def lexR (a b : ℕ × SubjectInfo) : Prop :=
  a.2.score < b.2.score ∨ (a.2.score = b.2.score ∧ a.1 ≤ b.1)

instance : DecidableRel lexR := fun a b => by
  unfold lexR; infer_instance

/-- Spec wording of `focus_areas` (§4.3): the names of the three
lowest-scoring Subject Entries, ascending, ties broken by the original
input position; all of them when fewer than three exist. -/
def focusSpec (l : List SubjectInfo) : List String :=
  (((l.enum).insertionSort lexR).take 3).map (fun p => p.2.name)

/-! ## Rounding lemmas -/

theorem roundHalfEven_intCast (k : ℤ) : roundHalfEven (k : ℚ) = k := by
  unfold roundHalfEven
  rw [Int.floor_intCast]
  norm_num

theorem floor_le_roundHalfEven (q : ℚ) : ⌊q⌋ ≤ roundHalfEven q := by
  unfold roundHalfEven
  split_ifs <;> omega

theorem roundHalfEven_le_floor_add_one (q : ℚ) : roundHalfEven q ≤ ⌊q⌋ + 1 := by
  unfold roundHalfEven
  split_ifs <;> omega

theorem roundHalfEven_mono {a b : ℚ} (h : a ≤ b) :
    roundHalfEven a ≤ roundHalfEven b := by
  rcases lt_or_eq_of_le (Int.floor_le_floor h) with hf | hf
  · calc roundHalfEven a ≤ ⌊a⌋ + 1 := roundHalfEven_le_floor_add_one a
    _ ≤ ⌊b⌋ := by omega
    _ ≤ roundHalfEven b := floor_le_roundHalfEven b
  · have hfr : a - ⌊a⌋ ≤ b - ⌊b⌋ := by
      have := Int.floor_le a
      rw [hf]
      linarith
    unfold roundHalfEven
    rw [hf] at hfr ⊢
    split_ifs <;> first | omega | linarith

theorem round2_mono {a b : ℚ} (h : a ≤ b) : round2 a ≤ round2 b := by
  unfold round2
  have h100 : a * 100 ≤ b * 100 := by linarith
  have := roundHalfEven_mono h100
  have hc : ((roundHalfEven (a * 100) : ℚ)) ≤ (roundHalfEven (b * 100) : ℚ) :=
    Int.cast_le.mpr this
  linarith

theorem round2_intCast_div (k : ℤ) : round2 ((k : ℚ) / 100) = (k : ℚ) / 100 := by
  unfold round2
  rw [div_mul_cancel₀ _ (by norm_num : (100 : ℚ) ≠ 0), roundHalfEven_intCast]

theorem round2_round2 (q : ℚ) : round2 (round2 q) = round2 q :=
  round2_intCast_div (roundHalfEven (q * 100))

theorem round2_zero : round2 0 = 0 := by
  have := round2_intCast_div 0
  norm_num at this
  simpa using this

theorem round2_ten : round2 10 = 10 := by
  have := round2_intCast_div 1000
  norm_num at this
  simpa using this

/-- Both GPA variants of the source are fixed points of `round2`. -/
theorem round2_weighted_gpa (r : AcademicRecord) :
    round2 (weighted_gpa r) = weighted_gpa r := by
  unfold weighted_gpa
  split_ifs
  · exact round2_zero
  · exact round2_round2 _

/-! ## Claims -/

/-- C4: for every Academic Record with zero Subject Entries, `simple_gpa`
and `weighted_gpa` both equal 0.0 (no division by zero, no error), and the
record's grade level is POOR. -/
theorem c4_empty_record_gpa (r : AcademicRecord) (h : r.subjects = []) :
    simple_gpa r = 0 ∧ weighted_gpa r = 0 ∧ grade_level r = .poor := by
  have hs : simple_gpa r = 0 := by unfold simple_gpa; rw [if_pos h]
  have hw : weighted_gpa r = 0 := by unfold weighted_gpa; rw [if_pos h]
  refine ⟨hs, hw, ?_⟩
  unfold grade_level
  rw [hw]
  with_unfolding_all decide

/-- Witness for C4 at a concrete empty record. -/
theorem c4_empty_record_gpa_witness :
    recEmptyDemo.subjects = [] ∧
    (simple_gpa recEmptyDemo = 0 ∧ weighted_gpa recEmptyDemo = 0 ∧
     grade_level recEmptyDemo = .poor) :=
  ⟨rfl, c4_empty_record_gpa recEmptyDemo rfl⟩

/-- C3: for every record with at least one subject whose scores lie in
[0, 10] and whose weights lie in {1, 2, 3}, `simple_gpa` is the arithmetic
mean of the scores rounded to 2 decimals (weights ignored) and
`weighted_gpa` is (Σ sᵢ·wᵢ)/(Σ wᵢ) rounded to 2 decimals. -/
theorem c3_gpa_formulas (r : AcademicRecord) (hne : r.subjects ≠ [])
    (_hv : ∀ s ∈ r.subjects, validSubject s = true) :
    simple_gpa r =
      round2 ((r.subjects.map SubjectInfo.score).sum / (r.subjects.length : ℚ)) ∧
    weighted_gpa r =
      round2 ((r.subjects.map (fun s => s.score * (s.weight : ℚ))).sum /
              (r.subjects.map (fun s => (s.weight : ℚ))).sum) := by
  constructor
  · unfold simple_gpa
    rw [if_neg hne]
  · unfold weighted_gpa weighted_score
    rw [if_neg hne]

/-- Witness for C3 at the §8 scenario record (GPAs both 8.33). -/
theorem c3_gpa_formulas_witness :
    (rec3Demo.subjects ≠ [] ∧ ∀ s ∈ rec3Demo.subjects, validSubject s = true) ∧
    (simple_gpa rec3Demo =
      round2 ((rec3Demo.subjects.map SubjectInfo.score).sum /
              (rec3Demo.subjects.length : ℚ)) ∧
     weighted_gpa rec3Demo =
      round2 ((rec3Demo.subjects.map (fun s => s.score * (s.weight : ℚ))).sum /
              (rec3Demo.subjects.map (fun s => (s.weight : ℚ))).sum)) :=
  ⟨⟨by with_unfolding_all decide, by with_unfolding_all decide⟩,
   c3_gpa_formulas rec3Demo (by with_unfolding_all decide)
     (by with_unfolding_all decide)⟩

/-- C5: on a non-empty subject list the Statistics Engine gives
variance = std_dev = 0 and consistency = 100 when N = 1; consistency = 100
when the mean is 0; and otherwise (N > 1, mean > 0)
consistency = 100 − std_dev / mean × 100 — the guards prevent any division
by a zero mean. -/
theorem c5_consistency (sqrtFn : ℚ → ℚ) (subjects : List SubjectInfo)
    (s : Stats) (h : calculate_statistics sqrtFn subjects = some s) :
    (s.count = 1 → s.variance = 0 ∧ s.std_dev = 0 ∧ s.consistency_score = 100) ∧
    (s.mean = 0 → s.consistency_score = 100) ∧
    (1 < s.count → 0 < s.mean →
      s.consistency_score = 100 - s.std_dev / s.mean * 100) := by
  match subjects, h with
  | a :: l, h =>
    rw [calculate_statistics] at h
    injection h with h
    subst h
    refine ⟨?_, ?_, ?_⟩
    · intro hc
      dsimp only at hc ⊢
      rw [if_neg (by omega), if_neg (by omega),
          if_neg (by rintro ⟨h1, -⟩; omega)]
      norm_num
    · intro hm
      dsimp only at hm ⊢
      rw [if_neg (by rintro ⟨-, h2⟩; rw [hm] at h2; exact lt_irrefl 0 h2)]
      norm_num
    · intro hn hm
      dsimp only at hn hm ⊢
      rw [if_pos ⟨hn, hm⟩, if_pos hn]

/-- Witness for C5 at a concrete one-subject record. -/
theorem c5_consistency_witness :
    calculate_statistics id rec1Demo.subjects = some demoStats1 ∧
    ((demoStats1.count = 1 →
        demoStats1.variance = 0 ∧ demoStats1.std_dev = 0 ∧
        demoStats1.consistency_score = 100) ∧
     (demoStats1.mean = 0 → demoStats1.consistency_score = 100) ∧
     (1 < demoStats1.count → 0 < demoStats1.mean →
        demoStats1.consistency_score =
          100 - demoStats1.std_dev / demoStats1.mean * 100)) :=
  ⟨by with_unfolding_all decide,
   c5_consistency id rec1Demo.subjects demoStats1 (by with_unfolding_all decide)⟩

/-- C10: on a record with zero Subject Entries, `predict_performance`
returns without error current_gpa = 0, improvement_potential = 0,
predicted_next = 0, the lowest confidence label, the improve
recommendation and an empty focus list. -/
theorem c10_predict_empty (sqrtFn : ℚ → ℚ) (r : AcademicRecord)
    (h : r.subjects = []) :
    predict_performance sqrtFn r =
      ⟨0, 0, 0, "Thấp", "Cải thiện", []⟩ := by
  have hw : weighted_gpa r = 0 := by unfold weighted_gpa; rw [if_pos h]
  have hc : consistencyOf sqrtFn r = 0 := by
    unfold consistencyOf
    rw [h, calculate_statistics]
    rfl
  unfold predict_performance
  rw [hw, hc, h]
  norm_num [round2_zero]

/-- Witness for C10 at a concrete empty record. -/
theorem c10_predict_empty_witness :
    recEmptyDemo.subjects = [] ∧
    predict_performance id recEmptyDemo = ⟨0, 0, 0, "Thấp", "Cải thiện", []⟩ :=
  ⟨rfl, c10_predict_empty id recEmptyDemo rfl⟩

/-- C1 (code bug): on the empty-list statistics result (`{}`), the source
of `generate_insights` evaluates `stats.get('min') < 5.0`, i.e.
`None < 5.0`, and raises `TypeError` instead of returning the single
rule-1 remark; the embedded evaluation below exhibits the error. -/
theorem c1_insights_empty_crash :
    calculate_statistics id recEmptyDemo.subjects = none ∧
    generate_insights (calculate_statistics id recEmptyDemo.subjects)
        recEmptyDemo =
      .error "TypeError: comparison of NoneType and float" := by
  exact ⟨rfl, by with_unfolding_all rfl⟩

/-- C6: the projector computes
improvement = (10 − gpa) · (consistency / 100) · 0.3 and clamps
predicted = min(10, gpa + improvement); for gpa ∈ [0, 10] and
consistency ∈ [0, 100] the improvement is non-negative and the reported
`predicted_next` (the clamp, rounded to 2 decimals) stays in [gpa, 10]. -/
theorem c6_prediction_bounds (sqrtFn : ℚ → ℚ) (r : AcademicRecord)
    (_h1 : 0 ≤ weighted_gpa r) (h2 : weighted_gpa r ≤ 10)
    (h3 : 0 ≤ consistencyOf sqrtFn r) (_h4 : consistencyOf sqrtFn r ≤ 100) :
    0 ≤ (predict_performance sqrtFn r).improvement_potential ∧
    weighted_gpa r ≤ (predict_performance sqrtFn r).predicted_next ∧
    (predict_performance sqrtFn r).predicted_next ≤ 10 := by
  have himp : 0 ≤ (10 - weighted_gpa r) * (consistencyOf sqrtFn r / 100) * (3/10) := by
    apply mul_nonneg (mul_nonneg (by linarith) (by linarith))
    norm_num
  have hlb : weighted_gpa r ≤
      min 10 (weighted_gpa r +
        (10 - weighted_gpa r) * (consistencyOf sqrtFn r / 100) * (3/10)) :=
    le_min h2 (by linarith)
  have hub : min 10 (weighted_gpa r +
      (10 - weighted_gpa r) * (consistencyOf sqrtFn r / 100) * (3/10)) ≤ 10 :=
    min_le_left _ _
  unfold predict_performance
  dsimp only
  refine ⟨?_, ?_, ?_⟩
  · calc (0 : ℚ) = round2 0 := round2_zero.symm
    _ ≤ _ := round2_mono himp
  · calc weighted_gpa r = round2 (weighted_gpa r) := (round2_weighted_gpa r).symm
    _ ≤ _ := round2_mono hlb
  · calc round2 _ ≤ round2 10 := round2_mono hub
    _ = 10 := round2_ten

/-- Witness for C6 at a concrete one-subject record (gpa 7,
consistency 100, predicted 7.9). -/
theorem c6_prediction_bounds_witness :
    (0 ≤ weighted_gpa rec1Demo ∧ weighted_gpa rec1Demo ≤ 10 ∧
     0 ≤ consistencyOf id rec1Demo ∧ consistencyOf id rec1Demo ≤ 100) ∧
    (0 ≤ (predict_performance id rec1Demo).improvement_potential ∧
     weighted_gpa rec1Demo ≤ (predict_performance id rec1Demo).predicted_next ∧
     (predict_performance id rec1Demo).predicted_next ≤ 10) :=
  ⟨⟨by with_unfolding_all decide, by with_unfolding_all decide,
    by with_unfolding_all decide, by with_unfolding_all decide⟩,
   c6_prediction_bounds id rec1Demo
     (by with_unfolding_all decide) (by with_unfolding_all decide)
     (by with_unfolding_all decide) (by with_unfolding_all decide)⟩

/-! ## Stable-sort lemmas for C7 -/

theorem fst_le_of_mem_enumFrom {α : Type} :
    ∀ {l : List α} {n : ℕ} {x : ℕ × α}, x ∈ l.enumFrom n → n ≤ x.1 := by
  intro l
  induction l with
  | nil => intro n x h; simp [List.enumFrom] at h
  | cons a t ih =>
    intro n x h
    simp only [List.enumFrom, List.mem_cons] at h
    rcases h with h | h
    · subst h; exact le_refl n
    · exact Nat.le_of_succ_le (ih h)

/-- With every index of `M` at least the inserted index, the lexicographic
insertion projects to a score-order insertion. -/
theorem map_snd_orderedInsert (x : ℕ × SubjectInfo) :
    ∀ (M : List (ℕ × SubjectInfo)), (∀ y ∈ M, x.1 ≤ y.1) →
      (M.orderedInsert lexR x).map Prod.snd =
        (M.map Prod.snd).orderedInsert scoreLe x.2 := by
  intro M
  induction M with
  | nil => intro _; rfl
  | cons b t ih =>
    intro hidx
    have hiff : lexR x b ↔ scoreLe x.2 b.2 := by
      unfold lexR scoreLe
      constructor
      · rintro (h | ⟨h, -⟩)
        · exact le_of_lt h
        · exact le_of_eq h
      · intro h
        rcases lt_or_eq_of_le h with h' | h'
        · exact Or.inl h'
        · exact Or.inr ⟨h', hidx b (List.mem_cons_self b t)⟩
    simp only [List.orderedInsert, List.map_cons]
    split_ifs with h1 h2 h2
    · simp
    · exact absurd (hiff.mp h1) h2
    · exact absurd (hiff.mpr h2) h1
    · simp only [List.map_cons, List.cons.injEq, true_and]
      exact ih fun y hy => hidx y (List.mem_cons_of_mem b hy)

/-- Projecting away the indices turns the lexicographic stable sort of the
enumerated list into the score sort of the plain list. -/
theorem map_snd_insertionSort_enumFrom :
    ∀ (l : List SubjectInfo) (i : ℕ),
      ((l.enumFrom i).insertionSort lexR).map Prod.snd =
        l.insertionSort scoreLe := by
  intro l
  induction l with
  | nil => intro i; rfl
  | cons a t ih =>
    intro i
    have henum : (a :: t).enumFrom i = (i, a) :: t.enumFrom (i + 1) := by
      simp [List.enumFrom]
    rw [henum]
    simp only [List.insertionSort]
    rw [map_snd_orderedInsert (i, a) _ ?_, ih (i + 1)]
    intro y hy
    have hmem : y ∈ t.enumFrom (i + 1) :=
      ((t.enumFrom (i + 1)).perm_insertionSort lexR).subset hy
    exact Nat.le_of_succ_le (fst_le_of_mem_enumFrom hmem)

/-- C7: `focus_areas` equals the spec's description — the min(3, N) names
of the lowest-scoring Subject Entries in ascending score order with ties
broken by input order (the unique stable selection) — and has length
min(3, N). -/
theorem c7_focus_areas (sqrtFn : ℚ → ℚ) (r : AcademicRecord) :
    (predict_performance sqrtFn r).focus_areas = focusSpec r.subjects ∧
    (predict_performance sqrtFn r).focus_areas.length =
      Min.min 3 r.subjects.length := by
  have key : focusSpec r.subjects =
      ((r.subjects.insertionSort scoreLe).take 3).map SubjectInfo.name := by
    unfold focusSpec
    have : (fun p : ℕ × SubjectInfo => p.2.name) =
        SubjectInfo.name ∘ Prod.snd := rfl
    rw [this, ← List.map_map, List.map_take, List.enum,
        map_snd_insertionSort_enumFrom]
  refine ⟨?_, ?_⟩
  · unfold predict_performance
    rw [key]
  · unfold predict_performance
    dsimp only
    rw [List.length_map, List.length_take,
        (r.subjects.perm_insertionSort scoreLe).length_eq]

/-! ## First-occurrence extremum lemmas for C8 -/

theorem pyMin_le (l : List ℚ) : ∀ q : ℚ, pyMin q l ≤ q := by
  induction l with
  | nil => intro q; exact le_refl q
  | cons x t ih =>
    intro q
    calc pyMin q (x :: t) = pyMin (min q x) t := rfl
    _ ≤ min q x := ih (min q x)
    _ ≤ q := min_le_left q x

theorem pyMin_le_mem (l : List ℚ) :
    ∀ (q : ℚ), ∀ x ∈ l, pyMin q l ≤ x := by
  induction l with
  | nil => intro q x hx; cases hx
  | cons y t ih =>
    intro q x hx
    rcases List.mem_cons.mp hx with h | h
    · subst h
      calc pyMin q (x :: t) ≤ min q x := pyMin_le t (min q x)
      _ ≤ x := min_le_right q x
    · exact ih (min q y) x h

theorem le_pyMax (l : List ℚ) : ∀ q : ℚ, q ≤ pyMax q l := by
  induction l with
  | nil => intro q; exact le_refl q
  | cons x t ih =>
    intro q
    calc q ≤ max q x := le_max_left q x
    _ ≤ pyMax (max q x) t := ih (max q x)
    _ = pyMax q (x :: t) := rfl

theorem mem_le_pyMax (l : List ℚ) :
    ∀ (q : ℚ), ∀ x ∈ l, x ≤ pyMax q l := by
  induction l with
  | nil => intro q x hx; cases hx
  | cons y t ih =>
    intro q x hx
    rcases List.mem_cons.mp hx with h | h
    · subst h
      calc x ≤ max q x := le_max_right q x
      _ ≤ pyMax (max q x) t := le_pyMax t (max q x)
    · exact ih (max q y) x h

theorem pyMinBy_score (l : List SubjectInfo) :
    ∀ a : SubjectInfo,
      (pyMinBy a l).score = pyMin a.score (l.map SubjectInfo.score) := by
  induction l with
  | nil => intro a; rfl
  | cons x t ih =>
    intro a
    have hsc : (if x.score < a.score then x else a).score =
        min a.score x.score := by
      split_ifs with h
      · exact (min_eq_right (le_of_lt h)).symm
      · exact (min_eq_left (le_of_not_lt h)).symm
    calc (pyMinBy a (x :: t)).score
        = (pyMinBy (if x.score < a.score then x else a) t).score := rfl
    _ = pyMin (if x.score < a.score then x else a).score
          (t.map SubjectInfo.score) := ih _
    _ = pyMin (min a.score x.score) (t.map SubjectInfo.score) := by rw [hsc]
    _ = pyMin a.score ((x :: t).map SubjectInfo.score) := rfl

theorem pyMaxBy_score (l : List SubjectInfo) :
    ∀ a : SubjectInfo,
      (pyMaxBy a l).score = pyMax a.score (l.map SubjectInfo.score) := by
  induction l with
  | nil => intro a; rfl
  | cons x t ih =>
    intro a
    have hsc : (if a.score < x.score then x else a).score =
        max a.score x.score := by
      split_ifs with h
      · exact (max_eq_right (le_of_lt h)).symm
      · exact (max_eq_left (le_of_not_lt h)).symm
    calc (pyMaxBy a (x :: t)).score
        = (pyMaxBy (if a.score < x.score then x else a) t).score := rfl
    _ = pyMax (if a.score < x.score then x else a).score
          (t.map SubjectInfo.score) := ih _
    _ = pyMax (max a.score x.score) (t.map SubjectInfo.score) := by rw [hsc]
    _ = pyMax a.score ((x :: t).map SubjectInfo.score) := rfl

/-- Python `min(subjects, key=score)` is the first entry whose score
equals the minimum of the scores. -/
theorem find?_eq_pyMinBy (l : List SubjectInfo) :
    ∀ a : SubjectInfo,
      (a :: l).find?
          (fun e => decide (e.score = pyMin a.score (l.map SubjectInfo.score))) =
        some (pyMinBy a l) := by
  induction l with
  | nil =>
    intro a
    simp [List.find?, pyMin, pyMinBy]
  | cons x t ih =>
    intro a
    by_cases hcase : x.score < a.score
    · have key : pyMin a.score ((x :: t).map SubjectInfo.score) =
          pyMin x.score (t.map SubjectInfo.score) := by
        show pyMin (min a.score x.score) (t.map SubjectInfo.score) = _
        rw [min_eq_right (le_of_lt hcase)]
      have hminby : pyMinBy a (x :: t) = pyMinBy x t := by
        unfold pyMinBy
        rw [List.foldl_cons, if_pos hcase]
      have hne : ¬ (a.score = pyMin x.score (t.map SubjectInfo.score)) := by
        intro habs
        have h1 : pyMin x.score (t.map SubjectInfo.score) ≤ x.score :=
          pyMin_le _ _
        rw [← habs] at h1
        linarith
      rw [key, hminby, List.find?_cons_of_neg _ (by simpa using hne)]
      exact ih x
    · have key : pyMin a.score ((x :: t).map SubjectInfo.score) =
          pyMin a.score (t.map SubjectInfo.score) := by
        show pyMin (min a.score x.score) (t.map SubjectInfo.score) = _
        rw [min_eq_left (le_of_not_lt hcase)]
      have hminby : pyMinBy a (x :: t) = pyMinBy a t := by
        unfold pyMinBy
        rw [List.foldl_cons, if_neg hcase]
      have hma : pyMin a.score (t.map SubjectInfo.score) ≤ a.score :=
        pyMin_le _ _
      rw [key, hminby]
      by_cases hpa : a.score = pyMin a.score (t.map SubjectInfo.score)
      · rw [List.find?_cons_of_pos _ (by simpa using hpa)]
        have h2 := ih a
        rw [List.find?_cons_of_pos _ (by simpa using hpa)] at h2
        exact h2
      · have hxne : ¬ (x.score = pyMin a.score (t.map SubjectInfo.score)) := by
          intro habs
          have h4 : a.score ≤ x.score := le_of_not_lt hcase
          rw [habs] at h4
          exact hpa (le_antisymm h4 hma)
        rw [List.find?_cons_of_neg _ (by simpa using hpa),
            List.find?_cons_of_neg _ (by simpa using hxne)]
        have h2 := ih a
        rw [List.find?_cons_of_neg _ (by simpa using hpa)] at h2
        exact h2

/-- Python `max(subjects, key=score)` is the first entry whose score
equals the maximum of the scores. -/
theorem find?_eq_pyMaxBy (l : List SubjectInfo) :
    ∀ a : SubjectInfo,
      (a :: l).find?
          (fun e => decide (e.score = pyMax a.score (l.map SubjectInfo.score))) =
        some (pyMaxBy a l) := by
  induction l with
  | nil =>
    intro a
    simp [List.find?, pyMax, pyMaxBy]
  | cons x t ih =>
    intro a
    by_cases hcase : a.score < x.score
    · have key : pyMax a.score ((x :: t).map SubjectInfo.score) =
          pyMax x.score (t.map SubjectInfo.score) := by
        show pyMax (max a.score x.score) (t.map SubjectInfo.score) = _
        rw [max_eq_right (le_of_lt hcase)]
      have hmaxby : pyMaxBy a (x :: t) = pyMaxBy x t := by
        unfold pyMaxBy
        rw [List.foldl_cons, if_pos hcase]
      have hne : ¬ (a.score = pyMax x.score (t.map SubjectInfo.score)) := by
        intro habs
        have h1 : x.score ≤ pyMax x.score (t.map SubjectInfo.score) :=
          le_pyMax _ _
        rw [← habs] at h1
        linarith
      rw [key, hmaxby, List.find?_cons_of_neg _ (by simpa using hne)]
      exact ih x
    · have key : pyMax a.score ((x :: t).map SubjectInfo.score) =
          pyMax a.score (t.map SubjectInfo.score) := by
        show pyMax (max a.score x.score) (t.map SubjectInfo.score) = _
        rw [max_eq_left (le_of_not_lt hcase)]
      have hmaxby : pyMaxBy a (x :: t) = pyMaxBy a t := by
        unfold pyMaxBy
        rw [List.foldl_cons, if_neg hcase]
      have hma : a.score ≤ pyMax a.score (t.map SubjectInfo.score) :=
        le_pyMax _ _
      rw [key, hmaxby]
      by_cases hpa : a.score = pyMax a.score (t.map SubjectInfo.score)
      · rw [List.find?_cons_of_pos _ (by simpa using hpa)]
        have h2 := ih a
        rw [List.find?_cons_of_pos _ (by simpa using hpa)] at h2
        exact h2
      · have hxne : ¬ (x.score = pyMax a.score (t.map SubjectInfo.score)) := by
          intro habs
          have h4 : x.score ≤ a.score := le_of_not_lt hcase
          rw [habs] at h4
          exact hpa (le_antisymm hma h4)
        rw [List.find?_cons_of_neg _ (by simpa using hpa),
            List.find?_cons_of_neg _ (by simpa using hxne)]
        have h2 := ih a
        rw [List.find?_cons_of_neg _ (by simpa using hpa)] at h2
        exact h2

/-- C8: `min_subject` (resp. `max_subject`) names the Subject Entry
attaining the minimum (resp. maximum) score, and among ties the first
occurrence in input order is selected for both fields.  `s.min`/`s.max`
are the true extrema of the scores, and `find?` picks the first entry
attaining them. -/
theorem c8_extreme_subjects (sqrtFn : ℚ → ℚ) (subjects : List SubjectInfo)
    (s : Stats) (h : calculate_statistics sqrtFn subjects = some s) :
    (∀ e ∈ subjects, s.min ≤ e.score ∧ e.score ≤ s.max) ∧
    (subjects.find? (fun e => decide (e.score = s.min))).map SubjectInfo.name =
      some s.min_subject ∧
    (subjects.find? (fun e => decide (e.score = s.max))).map SubjectInfo.name =
      some s.max_subject := by
  match subjects, h with
  | a :: l, h =>
    rw [calculate_statistics] at h
    injection h with h
    subst h
    dsimp only
    refine ⟨?_, ?_, ?_⟩
    · intro e he
      rcases List.mem_cons.mp he with he | he
      · subst he
        exact ⟨pyMin_le _ _, le_pyMax _ _⟩
      · exact ⟨pyMin_le_mem _ _ _ (List.mem_map_of_mem SubjectInfo.score he),
               mem_le_pyMax _ _ _ (List.mem_map_of_mem SubjectInfo.score he)⟩
    · rw [find?_eq_pyMinBy]
      rfl
    · rw [find?_eq_pyMaxBy]
      rfl

/-- Witness for C8 at a record with two subjects tied at score 5: the
first entry is selected for both extrema. -/
theorem c8_extreme_subjects_witness :
    calculate_statistics id recTieDemo.subjects = some demoStatsTie ∧
    ((∀ e ∈ recTieDemo.subjects,
        demoStatsTie.min ≤ e.score ∧ e.score ≤ demoStatsTie.max) ∧
     (recTieDemo.subjects.find?
        (fun e => decide (e.score = demoStatsTie.min))).map SubjectInfo.name =
       some demoStatsTie.min_subject ∧
     (recTieDemo.subjects.find?
        (fun e => decide (e.score = demoStatsTie.max))).map SubjectInfo.name =
       some demoStatsTie.max_subject) :=
  ⟨by with_unfolding_all decide,
   c8_extreme_subjects id recTieDemo.subjects demoStatsTie
     (by with_unfolding_all decide)⟩

/-! ## Database lemmas for C2 and C9 -/

theorem runSteps_none :
    ∀ (steps : List (DBState → DBState)) (k : ℕ) (db : DBState),
      runSteps none k steps db = (true, steps.foldl (fun d f => f d) db) := by
  intro steps
  induction steps with
  | nil => intro k db; rfl
  | cons f fs ih =>
    intro k db
    rw [runSteps, if_neg (by simp), ih, List.foldl_cons]

theorem foldl_subject_inserts (r : AcademicRecord) :
    ∀ (l : List SubjectInfo) (db : DBState),
      ((l.map (applySubjectInsert r)).foldl (fun d f => f d) db) =
        ⟨db.students, db.subjects ++ subjectRows r db.nextId l, db.records,
         db.nextId + l.length⟩ := by
  intro l
  induction l with
  | nil =>
    intro db
    simp [subjectRows]
  | cons s rest ih =>
    intro db
    rw [List.map_cons, List.foldl_cons, ih]
    simp only [applySubjectInsert, subjectRows, DBState.mk.injEq,
      List.append_assoc, List.singleton_append, List.cons_append,
      List.length_cons]
    exact ⟨trivial, by simp, trivial, by omega⟩

/-- Full characterisation of a fault-free `save_record`: it returns
`True` and commits the three writes. -/
theorem save_record_none_spec (r : AcademicRecord) (c : Conn) :
    save_record none r c =
      (true,
       ⟨⟨c.current.students.filter
            (fun st => st.student_id != r.student.student_id) ++
           [⟨r.student.student_id, r.student.full_name, r.student.class_name,
             r.student.academic_year, r.student.date_of_birth,
             r.student.gender, r.student.email, r.student.phone,
             r.created_at⟩],
         c.current.subjects ++ subjectRows r c.current.nextId r.subjects,
         c.current.records.filter (fun ar => ar.record_id != r.record_id) ++
           [⟨r.record_id, r.student.student_id, r.semester, r.exam_type,
             simple_gpa r, weighted_gpa r, gradeLabel (grade_level r),
             r.subjects.length, r.created_at⟩],
         c.current.nextId + r.subjects.length⟩,
        ⟨c.current.students.filter
            (fun st => st.student_id != r.student.student_id) ++
           [⟨r.student.student_id, r.student.full_name, r.student.class_name,
             r.student.academic_year, r.student.date_of_birth,
             r.student.gender, r.student.email, r.student.phone,
             r.created_at⟩],
         c.current.subjects ++ subjectRows r c.current.nextId r.subjects,
         c.current.records.filter (fun ar => ar.record_id != r.record_id) ++
           [⟨r.record_id, r.student.student_id, r.semester, r.exam_type,
             simple_gpa r, weighted_gpa r, gradeLabel (grade_level r),
             r.subjects.length, r.created_at⟩],
         c.current.nextId + r.subjects.length⟩⟩) := by
  unfold save_record saveSteps
  rw [runSteps_none, List.foldl_cons, List.foldl_append, foldl_subject_inserts]
  unfold applyStudentUpsert applyRecordUpsert
  rfl

theorem subjectRows_record_id (r : AcademicRecord) :
    ∀ (l : List SubjectInfo) (n : ℕ) (row : SubjectRow),
      row ∈ subjectRows r n l → row.record_id = r.record_id := by
  intro l
  induction l with
  | nil => intro n row h; cases h
  | cons s rest ih =>
    intro n row h
    rcases List.mem_cons.mp h with h | h
    · subst h; rfl
    · exact ih (n + 1) row h

theorem loadSubjects_subjectRows (r : AcademicRecord) :
    ∀ (l : List SubjectInfo) (n : ℕ),
      (∀ s ∈ l, validSubject s = true) →
      loadSubjects (subjectRows r n l) = some l := by
  intro l
  induction l with
  | nil => intro n _; rfl
  | cons s rest ih =>
    intro n hv
    rw [subjectRows, loadSubjects]
    have hmk : mkSubjectInfo s.name s.score s.weight s.category s.notes =
        some s := by
      unfold mkSubjectInfo
      have : (⟨s.name, s.score, s.weight, s.category, s.notes⟩ : SubjectInfo) =
          s := by cases s; rfl
      rw [this, if_pos (hv s (List.mem_cons_self s rest))]
    rw [hmk, ih (n + 1) (fun x hx => hv x (List.mem_cons_of_mem s hx))]

/-- C9: a successful save of a record whose `record_id` is fresh (the
system-generated id is unique) followed by `load_record_by_id` on the same
id reconstructs the record exactly: same ordered subject list, same
student metadata, `created_at` preserved. -/
theorem c9_save_load_roundtrip (r : AcademicRecord) (c c' : Conn)
    (hstu : validStudentId r.student.student_id = true)
    (hsubs : ∀ s ∈ r.subjects, validSubject s = true)
    (hfresh : ∀ row ∈ c.current.subjects, row.record_id ≠ r.record_id)
    (hsave : save_record none r c = (true, c')) :
    load_record_by_id r.record_id c'.current = some r := by
  rw [save_record_none_spec r c] at hsave
  have hc' := (Prod.mk.injEq _ _ _ _ ▸ hsave)
  have hcur : c'.current =
      ⟨c.current.students.filter
          (fun st => st.student_id != r.student.student_id) ++
         [⟨r.student.student_id, r.student.full_name, r.student.class_name,
           r.student.academic_year, r.student.date_of_birth,
           r.student.gender, r.student.email, r.student.phone,
           r.created_at⟩],
       c.current.subjects ++ subjectRows r c.current.nextId r.subjects,
       c.current.records.filter (fun ar => ar.record_id != r.record_id) ++
         [⟨r.record_id, r.student.student_id, r.semester, r.exam_type,
           simple_gpa r, weighted_gpa r, gradeLabel (grade_level r),
           r.subjects.length, r.created_at⟩],
       c.current.nextId + r.subjects.length⟩ := by
    have := congrArg Prod.snd hsave.symm
    exact congrArg Conn.current this
  rw [hcur]
  unfold load_record_by_id
  have hfindrec :
      (c.current.records.filter (fun ar => ar.record_id != r.record_id) ++
        [(⟨r.record_id, r.student.student_id, r.semester, r.exam_type,
           simple_gpa r, weighted_gpa r, gradeLabel (grade_level r),
           r.subjects.length, r.created_at⟩ : RecordRow)]).find?
        (fun ar => ar.record_id == r.record_id) =
      some ⟨r.record_id, r.student.student_id, r.semester, r.exam_type,
            simple_gpa r, weighted_gpa r, gradeLabel (grade_level r),
            r.subjects.length, r.created_at⟩ := by
    rw [List.find?_append]
    have hnone : (c.current.records.filter
        (fun ar => ar.record_id != r.record_id)).find?
        (fun ar => ar.record_id == r.record_id) = none := by
      apply List.find?_eq_none.mpr
      intro x hx
      have := (List.mem_filter.mp hx).2
      simpa using this
    rw [hnone]
    simp [List.find?_cons_of_pos]
  have hfindstu :
      (c.current.students.filter
          (fun st => st.student_id != r.student.student_id) ++
        [(⟨r.student.student_id, r.student.full_name, r.student.class_name,
           r.student.academic_year, r.student.date_of_birth,
           r.student.gender, r.student.email, r.student.phone,
           r.created_at⟩ : StudentRow)]).find?
        (fun st => st.student_id == r.student.student_id) =
      some ⟨r.student.student_id, r.student.full_name, r.student.class_name,
            r.student.academic_year, r.student.date_of_birth,
            r.student.gender, r.student.email, r.student.phone,
            r.created_at⟩ := by
    rw [List.find?_append]
    have hnone : (c.current.students.filter
        (fun st => st.student_id != r.student.student_id)).find?
        (fun st => st.student_id == r.student.student_id) = none := by
      apply List.find?_eq_none.mpr
      intro x hx
      have := (List.mem_filter.mp hx).2
      simpa using this
    rw [hnone]
    simp [List.find?_cons_of_pos]
  have hmkstu : mkStudentInfo r.student.student_id r.student.full_name
      r.student.class_name r.student.academic_year r.student.date_of_birth
      r.student.gender r.student.email r.student.phone = some r.student := by
    unfold mkStudentInfo
    rw [if_pos hstu]
  have hfilter :
      ((c.current.subjects ++
        subjectRows r c.current.nextId r.subjects).filter
        (fun s => s.record_id == r.record_id)) =
      subjectRows r c.current.nextId r.subjects := by
    rw [List.filter_append]
    have h1 : (c.current.subjects.filter
        (fun s => s.record_id == r.record_id)) = [] := by
      rw [List.filter_eq_nil_iff]
      intro x hx
      simpa using hfresh x hx
    have h2 : ((subjectRows r c.current.nextId r.subjects).filter
        (fun s => s.record_id == r.record_id)) =
        subjectRows r c.current.nextId r.subjects := by
      apply List.filter_eq_self.mpr
      intro x hx
      simpa using subjectRows_record_id r r.subjects c.current.nextId x hx
    rw [h1, h2]
    rfl
  simp only [hfindrec, hfindstu, hmkstu, hfilter,
    loadSubjects_subjectRows r r.subjects c.current.nextId hsubs]

/-- Witness for C9: concrete record saved on a fresh connection and
reloaded. -/
theorem c9_save_load_roundtrip_witness :
    (validStudentId rec1Demo.student.student_id = true ∧
     (∀ s ∈ rec1Demo.subjects, validSubject s = true) ∧
     (∀ row ∈ freshConn.current.subjects,
        row.record_id ≠ rec1Demo.record_id) ∧
     save_record none rec1Demo freshConn = (true, c9Conn)) ∧
    load_record_by_id rec1Demo.record_id c9Conn.current = some rec1Demo :=
  ⟨⟨by with_unfolding_all decide,
    by with_unfolding_all decide,
    by intro row hr; simp [freshConn, emptyDB] at hr,
    by with_unfolding_all rfl⟩,
   c9_save_load_roundtrip rec1Demo freshConn c9Conn
     (by with_unfolding_all decide)
     (by with_unfolding_all decide)
     (by intro row hr; simp [freshConn, emptyDB] at hr)
     (by with_unfolding_all rfl)⟩

/-- C2 (code bug): `save_record` is not atomic.  A save that fails at its
third data statement returns failure, but its first two writes stay
pending in the connection (no `rollback()` in the `except` branch); the
next successful save commits them, so the committed database afterwards
contains the failed call's subject row — a visible partial write — while
the failed call's record-summary row is absent. -/
theorem c2_save_partial_write_visible :
    (save_record (some 2) rec1Demo freshConn).1 = false ∧
    (save_record none recOtherDemo c2FailedConn).1 = true ∧
    (c2FinalConn.committed.subjects.filter
       (fun row => row.record_id == rec1Demo.record_id)).length = 1 ∧
    c2FinalConn.committed.records.find?
       (fun ar => ar.record_id == rec1Demo.record_id) = none := by
  refine ⟨?_, ?_, ?_, ?_⟩ <;> with_unfolding_all decide

end Grade
